import Mathlib

/-!
Shallow embedding of the orchestration core of the `crewai-content-stragtegy`
repository (files `src/core/state.py`, `src/core/workflow.py`,
`src/core/recovery.py`), together with theorems settling the frozen claims
about its specification.

Python dictionaries are modelled as association lists with last-writer-wins
insertion (`dictSet`) and first-match lookup (`dictGet`), which agree with
`dict.__setitem__` / `dict.get` on the maps used here (each key occurs at
most once).  Methods that can raise return an `Option PyErr` (the raised
exception, `none` when the call returns normally) alongside the object state
after the call, so that "a raise leaves the maps unchanged" is a provable
statement rather than a modelling artefact.
-/

set_option autoImplicit false

/-- Python exceptions that the embedded code can raise. -/
inductive PyErr where
  /-- `StateTransitionError` from `src/core/state.py`, carrying the attempted
  edge (string values of the current and requested status). -/
  | stateTransitionError (fromState toState : String)
  /-- `ValueError(msg)`. -/
  | valueError (msg : String)
  /-- `RuntimeError(msg)`. -/
  | runtimeError (msg : String)
  /-- `AttributeError`: access to a missing attribute of the named member. -/
  | attributeError (attr : String)
  /-- `KeyError` raised by a failing `dict[...]` subscript. -/
  | keyError (key : String)
  /-- `FileNotFoundError` for a missing checkpoint file. -/
  | fileNotFoundError (path : String)
  deriving DecidableEq, Repr

/-- `m.get(k)` on a Python dict modelled as an association list. -/
def dictGet {α : Type} : List (String × α) → String → Option α
  | [], _ => none
  | (k, v) :: rest, key => if k = key then some v else dictGet rest key

/-- `m[k] = v` on a Python dict: overwrite in place if the key is present,
append otherwise (insertion order preserved, as for `dict`). -/
def dictSet {α : Type} : List (String × α) → String → α → List (String × α)
  | [], key, v => [(key, v)]
  | (k, w) :: rest, key, v =>
      if k = key then (key, v) :: rest else (k, w) :: dictSet rest key v

theorem dictGet_dictSet_self {α : Type} (m : List (String × α)) (k : String) (v : α) :
    dictGet (dictSet m k v) k = some v := by
  induction m with
  | nil => simp [dictGet, dictSet]
  | cons hd tl ih =>
      obtain ⟨k', w⟩ := hd
      by_cases h : k' = k
      · simp [dictGet, dictSet, h]
      · simp [dictGet, dictSet, h, ih]

theorem dictGet_dictSet_ne {α : Type} (m : List (String × α)) (k j : String) (v : α)
    (h : j ≠ k) : dictGet (dictSet m k v) j = dictGet m j := by
  induction m with
  | nil => simp [dictGet, dictSet, Ne.symm h]
  | cons hd tl ih =>
      obtain ⟨k', w⟩ := hd
      by_cases hk : k' = k
      · subst hk
        simp [dictGet, dictSet, Ne.symm h]
      · simp [dictGet, dictSet, hk, ih]

theorem dictGet_dictSet_of_get {α : Type} (m : List (String × α)) (k : String) (v : α)
    (h : dictGet m k = some v) : ∀ j, dictGet (dictSet m k v) j = dictGet m j := by
  intro j
  by_cases hj : j = k
  · subst hj
    rw [dictGet_dictSet_self, h]
  · exact dictGet_dictSet_ne m k j v hj

/-! ## `src/core/state.py` -/

/-- `DebateStatus` (`src/core/state.py`, lines 10-16). -/
inductive DebateStatus where
  | pending
  | in_progress
  | consensus_reached
  | failed
  | terminated
  deriving DecidableEq, Repr

/-- The string value of each `DebateStatus` member. -/
def DebateStatus.value : DebateStatus → String
  | .pending => "pending"
  | .in_progress => "in_progress"
  | .consensus_reached => "consensus_reached"
  | .failed => "failed"
  | .terminated => "terminated"

/-- `WorkflowStatus` (`src/core/state.py`, lines 18-24).  Note that the enum
has exactly these five members: there is no `PAUSED` or `CANCELLED` member,
although `src/core/workflow.py` refers to both. -/
inductive WorkflowStatus where
  | pending
  | in_progress
  | completed
  | failed
  | terminated
  deriving DecidableEq, Repr

/-- The string value of each `WorkflowStatus` member. -/
def WorkflowStatus.value : WorkflowStatus → String
  | .pending => "pending"
  | .in_progress => "in_progress"
  | .completed => "completed"
  | .failed => "failed"
  | .terminated => "terminated"

/-- Python attribute lookup `WorkflowStatus.<name>`: `some` for the five
members defined in `src/core/state.py`, `none` (an `AttributeError` at the
access site) for anything else, in particular `PAUSED` and `CANCELLED`. -/
def WorkflowStatus.attr (name : String) : Option WorkflowStatus :=
  if name = "PENDING" then some .pending
  else if name = "IN_PROGRESS" then some .in_progress
  else if name = "COMPLETED" then some .completed
  else if name = "FAILED" then some .failed
  else if name = "TERMINATED" then some .terminated
  else none

/-- `TaskStatus` (`src/core/state.py`, lines 26-32). -/
inductive TaskStatus where
  | pending
  | in_progress
  | completed
  | failed
  | terminated
  deriving DecidableEq, Repr

/-- The string value of each `TaskStatus` member. -/
def TaskStatus.value : TaskStatus → String
  | .pending => "pending"
  | .in_progress => "in_progress"
  | .completed => "completed"
  | .failed => "failed"
  | .terminated => "terminated"

/-- `StateManager.VALID_TRANSITIONS[DebateStatus]` (state.py lines 39-49). -/
def DebateStatus.validTransitions : DebateStatus → List DebateStatus
  | .pending => [.in_progress, .failed]
  | .in_progress => [.consensus_reached, .failed, .terminated]
  | .consensus_reached => [.terminated]
  | .failed => [.terminated]
  | .terminated => []

/-- `StateManager.VALID_TRANSITIONS[WorkflowStatus]` (state.py lines 50-60). -/
def WorkflowStatus.validTransitions : WorkflowStatus → List WorkflowStatus
  | .pending => [.in_progress, .failed]
  | .in_progress => [.completed, .failed, .terminated]
  | .completed => [.terminated]
  | .failed => [.terminated]
  | .terminated => []

/-- `StateManager.VALID_TRANSITIONS[TaskStatus]` (state.py lines 61-71). -/
def TaskStatus.validTransitions : TaskStatus → List TaskStatus
  | .pending => [.in_progress, .failed]
  | .in_progress => [.completed, .failed, .terminated]
  | .completed => [.terminated]
  | .failed => [.terminated]
  | .terminated => []

/-- An event carried through the EventBus (`EventEmitter.emit` in
`src/core/events.py`): the fields a state-transition notification would
need, per the spec (entity id and new status in the payload). -/
structure EmittedEvent where
  event_type : String
  entity_id : String
  payload_status : String
  deriving DecidableEq, Repr

/-- `StateManager._states` (state.py lines 81-85): three independent maps
from entity id to status, one per kind. -/
structure StateManager where
  workflow : List (String × WorkflowStatus)
  debate : List (String × DebateStatus)
  task : List (String × TaskStatus)
  deriving Repr

/-- `StateManager._validate_transition` (state.py lines 87-113), generic
over the status kind exactly as the Python method is generic over
`state_type`: `value` stands for the enum's string values used in the error
message, `valid` for `VALID_TRANSITIONS[state_type]`.  Returns the raised
exception, or `none` when the transition is allowed (including the
`current == new` early return). -/
def validateTransition {σ : Type} [DecidableEq σ] (value : σ → String)
    (valid : σ → List σ) (current new : σ) : Option PyErr :=
  if current = new then none
  else if new ∈ valid current then none
  else some (.stateTransitionError (value current) (value new))

/-- `StateManager.set_workflow_state` (state.py lines 115-125).  The result
is the manager after the call, the events emitted through the EventBus
during the call, and the exception raised (if any).  The source method only
writes a `logger.info` line after updating the map — it never calls
`self.event_emitter`, so the emitted-event list is always empty. -/
def StateManager.set_workflow_state (m : StateManager) (workflow_id : String)
    (status : WorkflowStatus) : StateManager × List EmittedEvent × Option PyErr :=
  let current := (dictGet m.workflow workflow_id).getD .pending
  match validateTransition WorkflowStatus.value WorkflowStatus.validTransitions current status with
  | some e => (m, [], some e)
  | none => ({ m with workflow := dictSet m.workflow workflow_id status }, [], none)

/-- `StateManager.set_debate_state` (state.py lines 127-137); same shape as
`set_workflow_state`, again with no EventBus emission in the source. -/
def StateManager.set_debate_state (m : StateManager) (debate_id : String)
    (status : DebateStatus) : StateManager × List EmittedEvent × Option PyErr :=
  let current := (dictGet m.debate debate_id).getD .pending
  match validateTransition DebateStatus.value DebateStatus.validTransitions current status with
  | some e => (m, [], some e)
  | none => ({ m with debate := dictSet m.debate debate_id status }, [], none)

/-- `StateManager.set_task_state` (state.py lines 139-149); same shape as
`set_workflow_state`, again with no EventBus emission in the source. -/
def StateManager.set_task_state (m : StateManager) (task_id : String)
    (status : TaskStatus) : StateManager × List EmittedEvent × Option PyErr :=
  let current := (dictGet m.task task_id).getD .pending
  match validateTransition TaskStatus.value TaskStatus.validTransitions current status with
  | some e => (m, [], some e)
  | none => ({ m with task := dictSet m.task task_id status }, [], none)

/-- `StateManager.get_workflow_state` (state.py lines 151-160). -/
def StateManager.get_workflow_state (m : StateManager) (workflow_id : String) :
    Option WorkflowStatus :=
  dictGet m.workflow workflow_id

/-- `StateManager.get_debate_state` (state.py lines 162-171). -/
def StateManager.get_debate_state (m : StateManager) (debate_id : String) :
    Option DebateStatus :=
  dictGet m.debate debate_id

/-- `StateManager.get_task_state` (state.py lines 173-182). -/
def StateManager.get_task_state (m : StateManager) (task_id : String) :
    Option TaskStatus :=
  dictGet m.task task_id

/-! ## `src/core/workflow.py` -/

/-- `TaskDefinition` (workflow.py lines 25-34).  `required_resources` values
are Python floats used only additively in validation; they are modelled as
rationals. -/
structure TaskDefinition where
  task_id : String
  name : String
  description : String
  agent_pair_id : String
  dependencies : List String
  estimated_duration : Option Nat
  required_resources : List (String × Rat)
  metadata : List (String × String)
  deriving Repr

/-- `WorkflowDefinition` (workflow.py lines 36-44). -/
structure WorkflowDefinition where
  workflow_id : String
  name : String
  description : String
  tasks : List TaskDefinition
  max_parallel_tasks : Nat
  timeout : Option Nat
  metadata : List (String × String)
  deriving Repr

/-- The mutable fields of `WorkflowManager` (workflow.py lines 62-73) that
the embedded methods read or write.  The task queue and resource counters
belong to the asynchronous execution loop and are not needed by the claims
about validation and pause/resume. -/
structure WorkflowManager where
  state_manager : StateManager
  workflows : List (String × WorkflowDefinition)
  active_workflows : List String
  max_concurrent_workflows : Nat
  deriving Repr

/-- `WorkflowManager.validate_workflow` (workflow.py lines 103-139).
Raises `ValueError` when the workflow id is unknown or when some task lists
a dependency id that is not a task of the same definition (first offender,
in task order then dependency order, as the Python loops do); otherwise
returns `True`.  The `total_resources` aggregation of the source is computed
and discarded exactly as in the source, which never uses it.  Despite the
source comment `# Check for dependency cycles`, no cycle detection is
performed. -/
def WorkflowManager.validate_workflow (wm : WorkflowManager) (workflow_id : String) :
    Except PyErr Bool :=
  match dictGet wm.workflows workflow_id with
  | none => .error (.valueError ("Workflow " ++ workflow_id ++ " not found"))
  | some workflow =>
      let task_ids := workflow.tasks.map (·.task_id)
      match workflow.tasks.findSome? (fun task =>
          (task.dependencies.find? (fun dep_id => decide (dep_id ∉ task_ids))).map
            (fun dep_id => (task.task_id, dep_id))) with
      | some (tid, dep_id) =>
          .error (.valueError
            ("Task " ++ tid ++ " depends on non-existent task " ++ dep_id))
      | none =>
          let _total_resources :=
            (workflow.tasks.foldl (fun acc task =>
              acc ++ task.required_resources.map Prod.fst) []).map
              (fun resource =>
                (resource,
                 workflow.tasks.foldl (fun s task =>
                   s + ((dictGet task.required_resources resource).getD 0)) (0 : Rat)))
          .ok true

/-- The dependent-task enqueue step of `WorkflowManager._execute_tasks`
(workflow.py lines 252-262), run after the task `completedTaskId` has been
marked `COMPLETED`: `completed_tasks` is the set of this workflow's tasks
whose tracked state is `COMPLETED`, and the tasks passed to `_queue_task`
are exactly those distinct from the just-completed task all of whose
dependencies are in `completed_tasks`. -/
def WorkflowManager.queueDependentTasks (workflow : WorkflowDefinition)
    (m : StateManager) (completedTaskId : String) : List TaskDefinition :=
  let completed_tasks :=
    (workflow.tasks.filter (fun t =>
      decide (m.get_task_state t.task_id = some TaskStatus.completed))).map (·.task_id)
  workflow.tasks.filter (fun next_task =>
    decide (next_task.task_id ≠ completedTaskId ∧
      ∀ dep ∈ next_task.dependencies, dep ∈ completed_tasks))

/-- `WorkflowManager.pause_workflow` (workflow.py lines 298-310): raises
`ValueError` when the workflow is not in the active set; otherwise evaluates
`WorkflowStatus.PAUSED`, which is an `AttributeError` since the enum has no
such member; were the member present, the result would be handed to
`set_workflow_state`. -/
def WorkflowManager.pause_workflow (wm : WorkflowManager) (workflow_id : String) :
    WorkflowManager × Option PyErr :=
  if workflow_id ∉ wm.active_workflows then
    (wm, some (.valueError ("Workflow " ++ workflow_id ++ " not active")))
  else
    match WorkflowStatus.attr "PAUSED" with
    | none => (wm, some (.attributeError "PAUSED"))
    | some st =>
        let r := wm.state_manager.set_workflow_state workflow_id st
        ({ wm with state_manager := r.1 }, r.2.2)

/-- `WorkflowManager.resume_workflow` (workflow.py lines 312-325): reads the
current state, then compares it against `WorkflowStatus.PAUSED` — an
attribute access that is an `AttributeError` before the comparison can run;
were the member present, a non-`PAUSED` current state would be a
`ValueError` and otherwise the workflow would be set `IN_PROGRESS`. -/
def WorkflowManager.resume_workflow (wm : WorkflowManager) (workflow_id : String) :
    WorkflowManager × Option PyErr :=
  let current := wm.state_manager.get_workflow_state workflow_id
  match WorkflowStatus.attr "PAUSED" with
  | none => (wm, some (.attributeError "PAUSED"))
  | some paused =>
      if current ≠ some paused then
        (wm, some (.valueError ("Workflow " ++ workflow_id ++ " not paused")))
      else
        let r := wm.state_manager.set_workflow_state workflow_id .in_progress
        ({ wm with state_manager := r.1 }, r.2.2)

/-! ## `src/core/recovery.py` -/

/-- `RecoveryLevel` (recovery.py lines 14-20). -/
inductive RecoveryLevel where
  | retry
  | rollback
  | checkpoint
  | terminate
  | emergency
  deriving DecidableEq, Repr

/-- `ErrorCategory` (recovery.py lines 22-30). -/
inductive ErrorCategory where
  | transient
  | state
  | resource
  | validation
  | agent
  | system
  | unknown
  deriving DecidableEq, Repr

/-- `RecoveryAction` (recovery.py lines 32-52).  `delay` is a Python float
(values 0.0 / 1.0 / 2.0 in the fixed table), modelled as a rational; the
optional `cleanup_func` callable is not modelled — it is `None` for every
action the manager constructs. -/
structure RecoveryAction where
  level : RecoveryLevel
  max_retries : Nat
  delay : Rat
  deriving DecidableEq, Repr

/-- The `category_mapping` dict of `RecoveryManager.categorize_error`
(recovery.py lines 195-203), keyed by `type(error).__name__`. -/
def category_mapping (error_type : String) : Option ErrorCategory :=
  if error_type = "ConnectionError" then some .transient
  else if error_type = "TimeoutError" then some .transient
  else if error_type = "StateTransitionError" then some .state
  else if error_type = "ResourceError" then some .resource
  else if error_type = "ValidationError" then some .validation
  else if error_type = "AgentError" then some .agent
  else if error_type = "SystemError" then some .system
  else none

/-- `RecoveryManager.categorize_error` (recovery.py lines 183-205): a fixed
lookup on the concrete error kind's name, defaulting to `UNKNOWN`. -/
def categorize_error (error_type : String) : ErrorCategory :=
  (category_mapping error_type).getD .unknown

/-- The `recovery_actions` dict built in `RecoveryManager.__init__`
(recovery.py lines 130-162).  The dict has entries for exactly six
categories; `ErrorCategory.UNKNOWN` has no entry, so a `[...]` subscript
with it raises `KeyError` — hence the `Option`. -/
def recovery_actions : ErrorCategory → Option RecoveryAction
  | .transient => some ⟨.retry, 3, 1⟩
  | .state => some ⟨.rollback, 1, 0⟩
  | .resource => some ⟨.checkpoint, 2, 2⟩
  | .validation => some ⟨.terminate, 0, 0⟩
  | .agent => some ⟨.retry, 2, 1⟩
  | .system => some ⟨.emergency, 0, 0⟩
  | .unknown => none

/-- The mutable state of `RecoveryManager` used by `handle_error`: the
`recovery_attempts` dict (recovery.py line 165) mapping error ids to the
number of recorded attempts. -/
structure RecoveryManager where
  recovery_attempts : List (String × Nat)
  deriving Repr

/-- The observable outcome of one `RecoveryManager.handle_error` call. -/
inductive HandleResult where
  /-- `self.recovery_actions[category]` raised `KeyError` (no entry for the
  category). -/
  | keyErrorRaised (category : ErrorCategory)
  /-- `raise error`: the original error was re-raised because the recorded
  attempts had reached the action's `max_retries`. -/
  | originalReraised
  /-- The call returned normally after executing the recovery action at the
  given level (`execute_recovery`, recovery.py lines 243-270, dispatches on
  the level; the transient/agent `RETRY` branch only sleeps). -/
  | recovered (level : RecoveryLevel)
  deriving DecidableEq, Repr

/-- `RecoveryManager.handle_error` (recovery.py lines 207-241).  `error` is
represented by its concrete kind's name, `ctx_error_id` is
`context.get("error_id")`, and `fresh_uuid` stands for the
`str(uuid.uuid4())` generated when the context carries no id.  The call
looks up the action for the error's category (a `KeyError` for `UNKNOWN`),
re-raises the original error when the recorded attempts for the error id
have reached `max_retries`, and otherwise increments the counter and runs
the recovery action. -/
def RecoveryManager.handle_error (rm : RecoveryManager) (error_type : String)
    (ctx_error_id : Option String) (fresh_uuid : String) :
    RecoveryManager × HandleResult :=
  let category := categorize_error error_type
  match recovery_actions category with
  | none => (rm, .keyErrorRaised category)
  | some action =>
      let error_id := ctx_error_id.getD fresh_uuid
      let attempts := (dictGet rm.recovery_attempts error_id).getD 0
      if action.max_retries ≤ attempts then
        (rm, .originalReraised)
      else
        ({ recovery_attempts := dictSet rm.recovery_attempts error_id (attempts + 1) },
         .recovered action.level)

/-- Values of the JSON data model, standing for what `json.dump` writes and
`json.load` reads back: the round trip through the serialized text is the
identity on this data model, so the persisted blob is modelled by the value
itself. -/
inductive JVal where
  | jstr (s : String)
  | jnum (n : Rat)
  | jbool (b : Bool)
  | jnull
  | jarr (elems : List JVal)
  | jobj (fields : List (String × JVal))

/-- `SystemState` (recovery.py lines 54-75): three id→status-string maps, a
free-form resources map (JSON-representable values), and the timestamp the
constructor stamps (`datetime.now().isoformat()`, modelled as an opaque
string supplied by the caller's clock). -/
structure SystemState where
  workflow_states : List (String × String)
  debate_states : List (String × String)
  task_states : List (String × String)
  resources : List (String × JVal)
  timestamp : String

/-- A string-valued map as it appears inside the checkpoint JSON object. -/
def encodeStrMap (m : List (String × String)) : JVal :=
  .jobj (m.map (fun p => (p.1, .jstr p.2)))

/-- Reads a string-valued map back out of a parsed JSON object's field
list; `none` on any shape other than the one `to_dict` writes. -/
def decodeStrMapList : List (String × JVal) → Option (List (String × String))
  | [] => some []
  | (k, .jstr v) :: rest => (decodeStrMapList rest).map (fun r => (k, v) :: r)
  | _ => none

/-- Reads a string-valued map out of a JSON value. -/
def decodeStrMap : JVal → Option (List (String × String))
  | .jobj fields => decodeStrMapList fields
  | _ => none

/-- Reads a free-form JSON object's field list. -/
def decodeObj : JVal → Option (List (String × JVal))
  | .jobj fields => some fields
  | _ => none

/-- `SystemState.to_dict` (recovery.py lines 77-89): the JSON object that
`create_checkpoint` passes to `json.dump`. -/
def SystemState.to_dict (s : SystemState) : JVal :=
  .jobj [("workflow_states", encodeStrMap s.workflow_states),
         ("debate_states", encodeStrMap s.debate_states),
         ("task_states", encodeStrMap s.task_states),
         ("resources", .jobj s.resources),
         ("timestamp", .jstr s.timestamp)]

/-- `SystemState.from_dict` (recovery.py lines 91-106): reads the four
fields back out of the parsed JSON value (a missing key is a `KeyError`,
modelled as `none`); the constructor stamps a fresh timestamp (`now`). -/
def SystemState.from_dict (data : JVal) (now : String) : Option SystemState := do
  let fields ← decodeObj data
  let w ← dictGet fields "workflow_states" >>= decodeStrMap
  let d ← dictGet fields "debate_states" >>= decodeStrMap
  let t ← dictGet fields "task_states" >>= decodeStrMap
  let r ← dictGet fields "resources" >>= decodeObj
  pure ⟨w, d, t, r, now⟩

/-- `RecoveryManager.create_checkpoint` (recovery.py lines 272-294): writes
`state.to_dict()` as the blob for the checkpoint id (the given one, or the
fresh uuid when none is given) in the checkpoint directory, and returns the
id.  The directory of `<id>.json` files is modelled as a map from id to
blob. -/
def create_checkpoint (store : List (String × JVal)) (state : SystemState)
    (checkpoint_id : Option String) (fresh_uuid : String) :
    List (String × JVal) × String :=
  let cid := checkpoint_id.getD fresh_uuid
  (dictSet store cid state.to_dict, cid)

/-- `RecoveryManager.restore_checkpoint` (recovery.py lines 296-323): a
missing checkpoint id in the context is a `ValueError`, a missing file a
`FileNotFoundError`; otherwise the blob is parsed and handed to
`SystemState.from_dict` (whose `KeyError` on a malformed blob is modelled
through the `Option`). -/
def restore_checkpoint (store : List (String × JVal))
    (ctx_checkpoint_id : Option String) (now : String) : Except PyErr SystemState :=
  match ctx_checkpoint_id with
  | none => .error (.valueError "No checkpoint ID provided")
  | some cid =>
      match dictGet store cid with
      | none => .error (.fileNotFoundError (cid ++ ".json"))
      | some blob =>
          match SystemState.from_dict blob now with
          | none => .error (.keyError "SystemState.from_dict")
          | some s => .ok s

/-! ## Claim theorems -/

/-- C1: for every state kind (workflow, task, debate), every entity id, and
every pair (A, B) of statuses with B distinct from A and (A, B) not an edge
of that kind's transition graph, `set_<kind>_state(id, B)` when the tracked
status of id is A raises `StateTransitionError` and returns the manager
unchanged (all three state maps intact). -/
theorem C1_invalid_transition_rejected (m : StateManager) (id : String) :
    (∀ A B : WorkflowStatus, dictGet m.workflow id = some A → B ≠ A →
        B ∉ WorkflowStatus.validTransitions A →
        m.set_workflow_state id B =
          (m, [], some (PyErr.stateTransitionError A.value B.value)))
  ∧ (∀ A B : TaskStatus, dictGet m.task id = some A → B ≠ A →
        B ∉ TaskStatus.validTransitions A →
        m.set_task_state id B =
          (m, [], some (PyErr.stateTransitionError A.value B.value)))
  ∧ (∀ A B : DebateStatus, dictGet m.debate id = some A → B ≠ A →
        B ∉ DebateStatus.validTransitions A →
        m.set_debate_state id B =
          (m, [], some (PyErr.stateTransitionError A.value B.value))) := by
  refine ⟨fun A B hA hne hedge => ?_, fun A B hA hne hedge => ?_,
          fun A B hA hne hedge => ?_⟩
  · simp [StateManager.set_workflow_state, validateTransition, hA, Ne.symm hne, hedge]
  · simp [StateManager.set_task_state, validateTransition, hA, Ne.symm hne, hedge]
  · simp [StateManager.set_debate_state, validateTransition, hA, Ne.symm hne, hedge]

/-- Witness for C1 at concrete inputs: a tracked workflow in `completed`
refuses `in_progress`, a tracked task in `completed` refuses `pending`, a
tracked debate in `consensus_reached` refuses `failed`. -/
theorem C1_invalid_transition_rejected_witness :
    (StateManager.mk [("w", .completed)] [("d", .consensus_reached)]
        [("t", .completed)]).set_workflow_state "w" .in_progress =
      (StateManager.mk [("w", .completed)] [("d", .consensus_reached)]
        [("t", .completed)], [],
       some (PyErr.stateTransitionError "completed" "in_progress"))
  ∧ (StateManager.mk [("w", .completed)] [("d", .consensus_reached)]
        [("t", .completed)]).set_task_state "t" .pending =
      (StateManager.mk [("w", .completed)] [("d", .consensus_reached)]
        [("t", .completed)], [],
       some (PyErr.stateTransitionError "completed" "pending"))
  ∧ (StateManager.mk [("w", .completed)] [("d", .consensus_reached)]
        [("t", .completed)]).set_debate_state "d" .failed =
      (StateManager.mk [("w", .completed)] [("d", .consensus_reached)]
        [("t", .completed)], [],
       some (PyErr.stateTransitionError "consensus_reached" "failed")) := by
  refine ⟨?_, ?_, ?_⟩
  · exact (C1_invalid_transition_rejected _ "w").1 .completed .in_progress
      (by decide) (by decide) (by decide)
  · exact (C1_invalid_transition_rejected _ "t").2.1 .completed .pending
      (by decide) (by decide) (by decide)
  · exact (C1_invalid_transition_rejected _ "d").2.2 .consensus_reached .failed
      (by decide) (by decide) (by decide)

/-- C2 (code_bug evidence): an accepted, state-changing transition — a
tracked workflow moving from `pending` to `in_progress` — updates the state
map and raises nothing, yet emits no event at all through the EventBus: the
source's `set_workflow_state` never touches `self.event_emitter`, it only
writes a log line, contradicting both the spec and the repository's own
`test_state_events` test. -/
theorem C2_accepted_transition_emits_no_event :
    ((StateManager.mk [("w1", .pending)] [] []).set_workflow_state "w1"
        .in_progress).2.2 = none
  ∧ ((StateManager.mk [("w1", .pending)] [] []).set_workflow_state "w1"
        .in_progress).1.workflow = [("w1", .in_progress)]
  ∧ ((StateManager.mk [("w1", .pending)] [] []).set_workflow_state "w1"
        .in_progress).2.1 = [] := by
  refine ⟨rfl, rfl, rfl⟩

/-- C9: for every state kind, requesting a transition to the status the
entity already holds never raises, leaves every tracked status of that
kind's map unchanged, and emits no transition event. -/
theorem C9_idempotent_noop (m : StateManager) (id : String) :
    (∀ A : WorkflowStatus, dictGet m.workflow id = some A →
        (m.set_workflow_state id A).2.2 = none ∧
        (m.set_workflow_state id A).2.1 = [] ∧
        ∀ j, dictGet (m.set_workflow_state id A).1.workflow j = dictGet m.workflow j)
  ∧ (∀ A : TaskStatus, dictGet m.task id = some A →
        (m.set_task_state id A).2.2 = none ∧
        (m.set_task_state id A).2.1 = [] ∧
        ∀ j, dictGet (m.set_task_state id A).1.task j = dictGet m.task j)
  ∧ (∀ A : DebateStatus, dictGet m.debate id = some A →
        (m.set_debate_state id A).2.2 = none ∧
        (m.set_debate_state id A).2.1 = [] ∧
        ∀ j, dictGet (m.set_debate_state id A).1.debate j = dictGet m.debate j) := by
  refine ⟨fun A hA => ⟨?_, ?_, fun j => ?_⟩, fun A hA => ⟨?_, ?_, fun j => ?_⟩,
          fun A hA => ⟨?_, ?_, fun j => ?_⟩⟩
  · simp [StateManager.set_workflow_state, validateTransition, hA]
  · simp [StateManager.set_workflow_state, validateTransition, hA]
  · simp only [StateManager.set_workflow_state, validateTransition, hA]
    simp [dictGet_dictSet_of_get m.workflow id A hA j]
  · simp [StateManager.set_task_state, validateTransition, hA]
  · simp [StateManager.set_task_state, validateTransition, hA]
  · simp only [StateManager.set_task_state, validateTransition, hA]
    simp [dictGet_dictSet_of_get m.task id A hA j]
  · simp [StateManager.set_debate_state, validateTransition, hA]
  · simp [StateManager.set_debate_state, validateTransition, hA]
  · simp only [StateManager.set_debate_state, validateTransition, hA]
    simp [dictGet_dictSet_of_get m.debate id A hA j]

/-- A manager with one tracked entity of each kind, for the C9 witness. -/
def idleStateManager : StateManager :=
  ⟨[("w", .in_progress)], [("d", .pending)], [("t", .failed)]⟩

/-- Witness for C9 at concrete inputs: re-setting each tracked entity to the
status it already holds raises nothing, emits nothing, and leaves its
tracked status as it was. -/
theorem C9_idempotent_noop_witness :
    (idleStateManager.set_workflow_state "w" .in_progress).2.2 = none
  ∧ (idleStateManager.set_workflow_state "w" .in_progress).2.1 = []
  ∧ dictGet (idleStateManager.set_workflow_state "w" .in_progress).1.workflow "w"
      = dictGet idleStateManager.workflow "w"
  ∧ (idleStateManager.set_task_state "t" .failed).2.2 = none
  ∧ dictGet (idleStateManager.set_task_state "t" .failed).1.task "t"
      = dictGet idleStateManager.task "t"
  ∧ (idleStateManager.set_debate_state "d" .pending).2.2 = none
  ∧ dictGet (idleStateManager.set_debate_state "d" .pending).1.debate "d"
      = dictGet idleStateManager.debate "d" := by
  refine ⟨((C9_idempotent_noop idleStateManager "w").1 .in_progress rfl).1,
          ((C9_idempotent_noop idleStateManager "w").1 .in_progress rfl).2.1,
          ((C9_idempotent_noop idleStateManager "w").1 .in_progress rfl).2.2 "w",
          ((C9_idempotent_noop idleStateManager "t").2.1 .failed rfl).1,
          ((C9_idempotent_noop idleStateManager "t").2.1 .failed rfl).2.2 "t",
          ((C9_idempotent_noop idleStateManager "d").2.2 .pending rfl).1,
          ((C9_idempotent_noop idleStateManager "d").2.2 .pending rfl).2.2 "d"⟩

/-- A workflow of two independent tasks (no dependencies), as created by
`create_workflow` with the given task list. -/
def twoTaskWorkflow : WorkflowDefinition :=
  ⟨"wf2", "Two independent tasks", "both tasks have no dependencies",
   [⟨"t1", "Task 1", "first", "pair1", [], none, [], []⟩,
    ⟨"t2", "Task 2", "second", "pair1", [], none, [], []⟩],
   1, none, []⟩

/-- A state manager in which both tasks of `twoTaskWorkflow` have already
reached `COMPLETED`. -/
def bothTasksCompleted : StateManager :=
  ⟨[], [], [("t1", .completed), ("t2", .completed)]⟩

/-- C3 (counterexample): after task t1 of a two-independent-task workflow
completes, the enqueue step of `_execute_tasks` enqueues task t2 even though
t2 is already in `COMPLETED` state — the code filters out only the
just-completed task itself, so an already-completed task is enqueued a
second time, contrary to the claim. -/
theorem C3_completed_task_requeued :
    bothTasksCompleted.get_task_state "t2" = some TaskStatus.completed
  ∧ (WorkflowManager.queueDependentTasks twoTaskWorkflow bothTasksCompleted
        "t1").map (·.task_id) = ["t2"] := by
  refine ⟨rfl, rfl⟩

/-- C3 (amended): after a task of a workflow completes, the set of tasks
that get enqueued is exactly those tasks of that workflow, other than the
just-completed task itself, whose entire dependency set is in the completed
state — with no exclusion of tasks that are already enqueued, active, or
completed, so such tasks can be enqueued again. -/
theorem C3_enqueued_iff_dependencies_completed (workflow : WorkflowDefinition)
    (m : StateManager) (completedTaskId : String) (t : TaskDefinition) :
    t ∈ WorkflowManager.queueDependentTasks workflow m completedTaskId ↔
      t ∈ workflow.tasks ∧ t.task_id ≠ completedTaskId ∧
        ∀ dep ∈ t.dependencies, ∃ u ∈ workflow.tasks,
          u.task_id = dep ∧ m.get_task_state u.task_id = some TaskStatus.completed := by
  simp only [WorkflowManager.queueDependentTasks, List.mem_filter,
    List.mem_map, List.mem_filter, decide_eq_true_eq]
  constructor
  · rintro ⟨ht, hne, hdep⟩
    refine ⟨ht, hne, fun dep hd => ?_⟩
    obtain ⟨u, ⟨hu, hc⟩, hid⟩ := hdep dep hd
    exact ⟨u, hu, hid, hc⟩
  · rintro ⟨ht, hne, hdep⟩
    refine ⟨ht, hne, fun dep hd => ?_⟩
    obtain ⟨u, hu, hid, hc⟩ := hdep dep hd
    exact ⟨u, ⟨hu, hc⟩, hid⟩

/-- A two-task workflow whose dependency graph is the cycle t1 → t2 → t1,
registered with a workflow manager. -/
def cyclicWorkflowManager : WorkflowManager :=
  ⟨⟨[], [], []⟩,
   [("wf1",
     ⟨"wf1", "Cyclic workflow", "t1 and t2 depend on each other",
      [⟨"t1", "Task 1", "first", "pair1", ["t2"], none, [], []⟩,
       ⟨"t2", "Task 2", "second", "pair1", ["t1"], none, [], []⟩],
      1, none, []⟩)],
   [], 5⟩

/-- C4 (code_bug evidence): `validate_workflow` accepts a workflow whose
dependency graph is a two-task cycle, returning `True` instead of raising a
named error — despite the source's own `# Check for dependency cycles`
comment, only dangling dependency ids are checked. -/
theorem C4_cyclic_workflow_validates :
    cyclicWorkflowManager.validate_workflow "wf1" = .ok true := by
  rfl

/-- C4 (dangling-dependency half, which the code does implement): validation
raises `ValueError` for every definition in which some task lists a
dependency id that does not reference a task of the same definition, and
returns ok when every dependency id resolves (no cycle check is run). -/
theorem C4_dangling_dependency_rejected (wm : WorkflowManager)
    (workflow_id : String) (workflow : WorkflowDefinition)
    (hw : dictGet wm.workflows workflow_id = some workflow) :
    ((∃ task ∈ workflow.tasks, ∃ dep ∈ task.dependencies,
        dep ∉ workflow.tasks.map (·.task_id)) →
      ∃ msg, wm.validate_workflow workflow_id = .error (.valueError msg))
  ∧ ((∀ task ∈ workflow.tasks, ∀ dep ∈ task.dependencies,
        dep ∈ workflow.tasks.map (·.task_id)) →
      wm.validate_workflow workflow_id = .ok true) := by
  constructor
  · rintro ⟨task, htask, dep, hdep, hmiss⟩
    simp only [WorkflowManager.validate_workflow, hw]
    split
    · rename_i tid dep_id heq
      exact ⟨"Task " ++ tid ++ " depends on non-existent task " ++ dep_id, rfl⟩
    · rename_i heq
      exfalso
      have hnone := List.findSome?_eq_none_iff.mp heq task htask
      rw [Option.map_eq_none'] at hnone
      have hfn := List.find?_eq_none.mp hnone dep hdep
      simp only [decide_eq_true_eq] at hfn
      exact hfn hmiss
  · intro hall
    simp only [WorkflowManager.validate_workflow, hw]
    split
    · rename_i tid dep_id heq
      exfalso
      obtain ⟨task, htask, hsome⟩ := List.exists_of_findSome?_eq_some heq
      rw [Option.map_eq_some'] at hsome
      obtain ⟨dep, hfd, _⟩ := hsome
      have hpred := List.find?_some hfd
      have hdmem := List.mem_of_find?_eq_some hfd
      simp only [decide_eq_true_eq] at hpred
      exact hpred (hall task htask dep hdmem)
    · rfl

/-- The manager state after `n` successive `handle_error` calls with the
same error and context (used to state the retry-budget claims about
repeated calls). -/
def iterateHandle (rm : RecoveryManager) (error_type : String)
    (ctx_error_id : Option String) (fresh_uuid : String) : Nat → RecoveryManager
  | 0 => rm
  | n + 1 =>
      ((iterateHandle rm error_type ctx_error_id fresh_uuid n).handle_error
        error_type ctx_error_id fresh_uuid).1

/-- C5: with a fixed error-correlation id in the context and a transient
error (`ConnectionError`, `max_retries = 3`) whose id has no recorded
attempts yet, the first three `handle_error` calls return without raising,
each incrementing the recorded attempt count for that id by one (to 1, 2,
3), and the fourth call re-raises the original error — exactly when the
recorded attempts have reached `max_retries`, not before. -/
theorem C5_transient_retry_budget (rm : RecoveryManager) (eid u : String)
    (h : dictGet rm.recovery_attempts eid = none) :
    (∀ n < 3,
        ((iterateHandle rm "ConnectionError" (some eid) u n).handle_error
            "ConnectionError" (some eid) u).2 = .recovered .retry ∧
        dictGet (iterateHandle rm "ConnectionError" (some eid) u
            (n + 1)).recovery_attempts eid = some (n + 1))
  ∧ ((iterateHandle rm "ConnectionError" (some eid) u 3).handle_error
        "ConnectionError" (some eid) u).2 = .originalReraised := by
  have hstep : ∀ (r : RecoveryManager) (k : Nat),
      dictGet r.recovery_attempts eid = some k → k < 3 →
      r.handle_error "ConnectionError" (some eid) u =
        (⟨dictSet r.recovery_attempts eid (k + 1)⟩, .recovered .retry) := by
    intro r k hk hlt
    simp [RecoveryManager.handle_error, categorize_error, category_mapping,
      recovery_actions, hk, Nat.not_le.mpr hlt]
  have call0 : rm.handle_error "ConnectionError" (some eid) u =
      (⟨dictSet rm.recovery_attempts eid 1⟩, .recovered .retry) := by
    simp [RecoveryManager.handle_error, categorize_error, category_mapping,
      recovery_actions, h]
  have e1 : iterateHandle rm "ConnectionError" (some eid) u 1 =
      ⟨dictSet rm.recovery_attempts eid 1⟩ := by
    have hu : iterateHandle rm "ConnectionError" (some eid) u 1 =
        (rm.handle_error "ConnectionError" (some eid) u).1 := rfl
    rw [hu, call0]
  have call1 := hstep ⟨dictSet rm.recovery_attempts eid 1⟩ 1
    (dictGet_dictSet_self _ _ _) (by decide)
  have e2 : iterateHandle rm "ConnectionError" (some eid) u 2 =
      ⟨dictSet (dictSet rm.recovery_attempts eid 1) eid 2⟩ := by
    have hu : iterateHandle rm "ConnectionError" (some eid) u 2 =
        ((iterateHandle rm "ConnectionError" (some eid) u 1).handle_error
          "ConnectionError" (some eid) u).1 := rfl
    rw [hu, e1, call1]
  have call2 := hstep ⟨dictSet (dictSet rm.recovery_attempts eid 1) eid 2⟩ 2
    (dictGet_dictSet_self _ _ _) (by decide)
  have e3 : iterateHandle rm "ConnectionError" (some eid) u 3 =
      ⟨dictSet (dictSet (dictSet rm.recovery_attempts eid 1) eid 2) eid 3⟩ := by
    have hu : iterateHandle rm "ConnectionError" (some eid) u 3 =
        ((iterateHandle rm "ConnectionError" (some eid) u 2).handle_error
          "ConnectionError" (some eid) u).1 := rfl
    rw [hu, e2, call2]
  have e0 : iterateHandle rm "ConnectionError" (some eid) u 0 = rm := rfl
  refine ⟨fun n hn => ?_, ?_⟩
  · interval_cases n
    · exact ⟨by rw [e0, call0], by rw [e1]; exact dictGet_dictSet_self _ _ _⟩
    · exact ⟨by rw [e1, call1], by rw [e2]; exact dictGet_dictSet_self _ _ _⟩
    · exact ⟨by rw [e2, call2], by rw [e3]; exact dictGet_dictSet_self _ _ _⟩
  · rw [e3]
    simp [RecoveryManager.handle_error, categorize_error, category_mapping,
      recovery_actions, dictGet_dictSet_self]

/-- Witness for C5 at concrete inputs: starting from an empty attempts map
with id "e1", the first call recovers with a retry and the fourth call
re-raises. -/
theorem C5_transient_retry_budget_witness :
    ((iterateHandle ⟨[]⟩ "ConnectionError" (some "e1") "u" 0).handle_error
        "ConnectionError" (some "e1") "u").2 = .recovered .retry
  ∧ dictGet (iterateHandle ⟨[]⟩ "ConnectionError" (some "e1") "u"
        1).recovery_attempts "e1" = some 1
  ∧ ((iterateHandle ⟨[]⟩ "ConnectionError" (some "e1") "u" 3).handle_error
        "ConnectionError" (some "e1") "u").2 = .originalReraised := by
  have hthm := C5_transient_retry_budget ⟨[]⟩ "e1" "u" rfl
  exact ⟨(hthm.1 0 (by decide)).1, (hthm.1 0 (by decide)).2, hthm.2⟩

/-- C6 (code_bug evidence): an error whose concrete kind is not in the fixed
categorization mapping is categorized `unknown`, as the claim says; but
`handle_error` applied to such an error raises `KeyError` at the
`recovery_actions[category]` subscript (the dict built in `__init__` has no
entry for `UNKNOWN`) instead of applying a conservative zero-retry policy
that re-raises the original error. -/
theorem C6_unknown_category_key_error :
    categorize_error "SomeNewError" = .unknown
  ∧ (RecoveryManager.mk []).handle_error "SomeNewError" (some "e1") "u" =
      (⟨[]⟩, .keyErrorRaised .unknown) := by
  refine ⟨rfl, rfl⟩

/-- A workflow manager with one active workflow "w" whose tracked status is
`in_progress` — the precondition under which the claim says pause must
succeed. -/
def activeWorkflowManager : WorkflowManager :=
  ⟨⟨[("w", .in_progress)], [], []⟩, [], ["w"], 5⟩

/-- C7 (code_bug evidence): with workflow "w" active and tracked
`in_progress`, `pause_workflow` does not set any `paused` status — it
raises `AttributeError` because `WorkflowStatus.PAUSED` does not exist in
`src/core/state.py` (its guard also tests active-set membership, not the
`in_progress` status); `resume_workflow` raises the same `AttributeError`
when it evaluates `WorkflowStatus.PAUSED` for its comparison.  The
repository's own `test_workflow_control` test expects both calls (and the
`PAUSED` and `CANCELLED` members) to work. -/
theorem C7_pause_resume_attribute_error :
    activeWorkflowManager.state_manager.get_workflow_state "w" =
      some WorkflowStatus.in_progress
  ∧ activeWorkflowManager.pause_workflow "w" =
      (activeWorkflowManager, some (PyErr.attributeError "PAUSED"))
  ∧ activeWorkflowManager.resume_workflow "w" =
      (activeWorkflowManager, some (PyErr.attributeError "PAUSED")) := by
  refine ⟨rfl, rfl, rfl⟩

theorem decodeStrMapList_encode (m : List (String × String)) :
    decodeStrMapList (m.map (fun p => (p.1, JVal.jstr p.2))) = some m := by
  induction m with
  | nil => rfl
  | cons hd tl ih =>
      obtain ⟨k, v⟩ := hd
      simp [decodeStrMapList, ih]

/-- C8: restoring the checkpoint produced by `create_checkpoint(S)` (under
the id that call returns) yields a `SystemState` structurally equal to `S`
on its `workflow_states`, `debate_states` and `task_states` maps and its
`resources` map, for every starting store, every optional checkpoint id and
every `S` — the round trip through the persisted JSON blob loses only the
timestamp, which the constructor re-stamps. -/
theorem C8_checkpoint_roundtrip (store : List (String × JVal)) (S : SystemState)
    (checkpoint_id : Option String) (u now : String) :
    ∃ S', restore_checkpoint (create_checkpoint store S checkpoint_id u).1
            (some (create_checkpoint store S checkpoint_id u).2) now = .ok S'
      ∧ S'.workflow_states = S.workflow_states
      ∧ S'.debate_states = S.debate_states
      ∧ S'.task_states = S.task_states
      ∧ S'.resources = S.resources := by
  refine ⟨⟨S.workflow_states, S.debate_states, S.task_states, S.resources, now⟩,
          ?_, rfl, rfl, rfl, rfl⟩
  simp [restore_checkpoint, create_checkpoint, dictGet_dictSet_self,
    SystemState.from_dict, SystemState.to_dict, decodeObj, dictGet,
    decodeStrMap, encodeStrMap, decodeStrMapList_encode]

/-- C10: when the context passed to `handle_error` carries no error id, the
call tracks its attempts under the freshly generated identifier; since a
fresh identifier has no recorded attempts, the recorded count starts at
zero, so for any error whose category's action has positive `max_retries`
the call never re-raises on the budget-exhausted path — it runs the
recovery action and records a count of one under the fresh id. -/
theorem C10_fresh_error_id_no_reraise (rm : RecoveryManager)
    (error_type u : String) (action : RecoveryAction)
    (hfresh : dictGet rm.recovery_attempts u = none)
    (haction : recovery_actions (categorize_error error_type) = some action)
    (hpos : 0 < action.max_retries) :
    (rm.handle_error error_type none u).2 = .recovered action.level
  ∧ dictGet (rm.handle_error error_type none u).1.recovery_attempts u = some 1 := by
  have hne : ¬ action.max_retries ≤ 0 := Nat.not_le.mpr hpos
  simp [RecoveryManager.handle_error, haction, hfresh, hne, dictGet_dictSet_self]

/-- Witness for C10 at concrete inputs: an empty attempts map, a
`ConnectionError` (transient, `max_retries = 3`), no error id in the
context, fresh uuid "u0". -/
theorem C10_fresh_error_id_no_reraise_witness :
    ((RecoveryManager.mk []).handle_error "ConnectionError" none "u0").2 =
      .recovered RecoveryLevel.retry
  ∧ dictGet ((RecoveryManager.mk []).handle_error "ConnectionError" none
      "u0").1.recovery_attempts "u0" = some 1 :=
  C10_fresh_error_id_no_reraise ⟨[]⟩ "ConnectionError" "u0" ⟨.retry, 3, 1⟩
    rfl rfl (by decide)
